import Mathlib

/-!
Shallow embedding of the multi-chain wallet connection and minting layer of
the memeforge repository: the chain registry (src/utils/blockchain/chains.ts),
the Algorand backend (src/utils/blockchain/algorand.ts), the EVM backend
(src/utils/blockchain/evm.ts) and the orchestration context
(src/context/BlockchainContext.tsx).  Asynchronous external calls (wallet
transports, RPC endpoints, upload steps) are modelled by environment records
whose fields carry the outcome of each awaited step; thrown JS exceptions are
modelled as `Except.error` carrying the error message; `try`/`catch` blocks
are compiled into the corresponding branch structure.
-/

namespace MemeForge

/-! ## JS helpers -/

/-- Truthiness of a nullable JS string: `null` and the empty string are falsy. -/
def jsTruthy : Option String → Bool
  | none => false
  | some s => s ≠ ""

/-- Model of `x || d` on a nullable JS string (falsy values replaced by the default). -/
def jsOr (o : Option String) (d : String) : String :=
  match o with
  | none => d
  | some s => if s = "" then d else s

/-- Model of `keys[0] || null`: an `undefined` or empty first key yields `null`. -/
def jsHeadOrNull (o : Option String) : Option String :=
  match o with
  | none => none
  | some s => if s = "" then none else some s

/-- Model of `String.prototype.startsWith` on character lists. -/
def listStartsWith : List Char → List Char → Bool
  | _, [] => true
  | [], _ :: _ => false
  | a :: as, b :: bs => a == b && listStartsWith as bs

/-- Model of `String.prototype.includes`. -/
def strIncludes (s pat : String) : Bool :=
  (List.range (s.toList.length + 1)).any fun i => listStartsWith (s.toList.drop i) pat.toList

/-- Model of `parseInt` on a decimal digit string. -/
def parseIntDec (s : String) : Nat :=
  s.toList.foldl (fun a c => a * 10 + (c.toNat - 48)) 0

/-- Model of `n.toString(16)` for a Nat. -/
def natToHex (n : Nat) : String :=
  String.mk (Nat.toDigits 16 n)

/-- Left-pad a digit string with zeros to the given width. -/
def padLeftZeros (width : Nat) (s : String) : String :=
  String.mk (List.replicate (width - s.length) '0') ++ s

/-! ## JS-object association lists

Connection maps (`Record<string, WalletConnection>`) are modelled as
association lists with JS object semantics: an existing key is updated in
place, a new key is appended at the end, `delete` removes the key, and
`Object.keys` lists keys in insertion order. -/

/-- Model of the spread update `\x7b ...obj, [k]: v \x7d`. -/
def objSet {α : Type} : List (String × α) → String → α → List (String × α)
  | [], k, v => [(k, v)]
  | (k', v') :: rest, k, v =>
      if k' = k then (k, v) :: rest else (k', v') :: objSet rest k v

/-- Model of property lookup `obj[k]` (absent keys are `undefined`). -/
def objGet {α : Type} : List (String × α) → String → Option α
  | [], _ => none
  | (k', v') :: rest, k => if k' = k then some v' else objGet rest k

/-- Model of `delete obj[k]`. -/
def objDelete {α : Type} : List (String × α) → String → List (String × α)
  | [], _ => []
  | (k', v') :: rest, k =>
      if k' = k then objDelete rest k else (k', v') :: objDelete rest k

/-- Model of `Object.keys(obj)`. -/
def objKeys {α : Type} (l : List (String × α)) : List String :=
  l.map (·.1)

/-! ## Data model (src/types/blockchain.ts) -/

/-- One attribute entry of `NFTMetadata.attributes` (values rendered as strings). -/
structure NFTAttribute where
  trait_type : String
  value : String
deriving DecidableEq, Repr

/-- NFTMetadata from src/types/blockchain.ts. -/
structure NFTMetadata where
  name : String
  description : String
  image : String
  external_url : Option String := none
  attributes : List NFTAttribute := []
deriving DecidableEq, Repr

/-- MintResult from src/types/blockchain.ts. -/
structure MintResult where
  success : Bool
  transactionHash : Option String := none
  tokenId : Option String := none
  error : Option String := none
deriving DecidableEq, Repr

/-- WalletConnection from src/types/blockchain.ts. -/
structure WalletConnection where
  address : String
  balance : String
  chainId : String
  walletType : String
deriving DecidableEq, Repr

/-- Native-currency descriptor of a ChainConfig. -/
structure NativeCurrency where
  name : String
  symbol : String
  decimals : Nat
deriving DecidableEq, Repr

/-- ChainConfig from src/types/blockchain.ts. -/
structure ChainConfig where
  id : String
  name : String
  displayName : String
  nativeCurrency : NativeCurrency
  rpcUrls : List String
  blockExplorerUrls : List String
  testnet : Bool
  logo : String
  walletTypes : List String
  contractAddress : Option String := none
deriving DecidableEq, Repr

/-! ## Chain registry (src/utils/blockchain/chains.ts) -/

def algorandTestnetConfig : ChainConfig :=
  { id := "algorand_testnet", name := "algorand", displayName := "Algorand TestNet",
    nativeCurrency := { name := "Algorand", symbol := "ALGO", decimals := 6 },
    rpcUrls := ["https://testnet-api.algonode.cloud"],
    blockExplorerUrls := ["https://testnet.algoexplorer.io"],
    testnet := true, logo := "🔵", walletTypes := ["pera", "myalgo", "defly"] }

def algorandMainnetConfig : ChainConfig :=
  { id := "algorand_mainnet", name := "algorand", displayName := "Algorand MainNet",
    nativeCurrency := { name := "Algorand", symbol := "ALGO", decimals := 6 },
    rpcUrls := ["https://mainnet-api.algonode.cloud"],
    blockExplorerUrls := ["https://algoexplorer.io"],
    testnet := false, logo := "🔵", walletTypes := ["pera", "myalgo", "defly"] }

def ethereumSepoliaConfig : ChainConfig :=
  { id := "ethereum_sepolia", name := "ethereum", displayName := "Ethereum Sepolia",
    nativeCurrency := { name := "Ethereum", symbol := "ETH", decimals := 18 },
    rpcUrls := ["https://sepolia.infura.io/v3/9aa3d95b3bc440fa88ea12eaa4456161"],
    blockExplorerUrls := ["https://sepolia.etherscan.io"],
    testnet := true, logo := "⟠", walletTypes := ["metamask", "walletconnect", "coinbase"],
    contractAddress := some "0x0000000000000000000000000000000000000000" }

def baseSepoliaConfig : ChainConfig :=
  { id := "base_sepolia", name := "base", displayName := "Base Sepolia",
    nativeCurrency := { name := "Ethereum", symbol := "ETH", decimals := 18 },
    rpcUrls := ["https://sepolia.base.org"],
    blockExplorerUrls := ["https://sepolia.basescan.org"],
    testnet := true, logo := "🔵", walletTypes := ["metamask", "walletconnect", "coinbase"],
    contractAddress := some "0x0000000000000000000000000000000000000000" }

def polygonMumbaiConfig : ChainConfig :=
  { id := "polygon_mumbai", name := "polygon", displayName := "Polygon Mumbai",
    nativeCurrency := { name := "Polygon", symbol := "MATIC", decimals := 18 },
    rpcUrls := ["https://rpc-mumbai.maticvigil.com"],
    blockExplorerUrls := ["https://mumbai.polygonscan.com"],
    testnet := true, logo := "🟣", walletTypes := ["metamask", "walletconnect", "coinbase"],
    contractAddress := some "0x0000000000000000000000000000000000000000" }

/-- SUPPORTED_CHAINS, in insertion order. -/
def SUPPORTED_CHAINS : List (String × ChainConfig) :=
  [("algorand_testnet", algorandTestnetConfig),
   ("algorand_mainnet", algorandMainnetConfig),
   ("ethereum_sepolia", ethereumSepoliaConfig),
   ("base_sepolia", baseSepoliaConfig),
   ("polygon_mumbai", polygonMumbaiConfig)]

def DEFAULT_CHAIN : String := "algorand_testnet"

/-- getChainConfig from chains.ts. -/
def getChainConfig (chainId : String) : Option ChainConfig :=
  objGet SUPPORTED_CHAINS chainId

/-! ## Algorand backend (src/utils/blockchain/algorand.ts)

Instance fields of class AlgorandBlockchain.  The wallet transport objects are
modelled by flags recording whether the corresponding adapter was constructed
(`peraWallet`, `walletConnectClient`) and, for WalletConnect, whether the
client currently reports an open session (`wcConnected`). -/
structure AlgorandState where
  currentConnection : Option WalletConnection := none
  isTestnet : Bool := true
  peraWallet : Bool := true
  walletConnectClient : Bool := true
  wcConnected : Bool := false
deriving DecidableEq, Repr

/-- Outcomes of the awaited external calls made during AlgorandBlockchain.connectWallet
and getBalance.  `peraAccounts` is the result of `peraWallet.connect()`; `wcAccounts`
holds `walletConnectClient.accounts` for an already-open session, `wcEvent` the payload
accounts of the `connect` event (or the rejection of `createSession`);
`accountMicroAlgos` the `amount` field of `accountInformation(address).do()`. -/
structure AlgoConnectEnv where
  peraAccounts : Except String (List String) := .ok []
  wcAccounts : List String := []
  wcEvent : Except String (List String) := .ok []
  accountMicroAlgos : Except String Nat := .error "network unavailable"

/-- Formatting of `(amount / 1000000).toFixed(6)` for amounts exact in double precision. -/
def formatMicroAlgos (amount : Nat) : String :=
  toString (amount / 1000000) ++ "." ++ padLeftZeros 6 (toString (amount % 1000000))

/-- AlgorandBlockchain.getBalance: on any failure of the account-information call the
catch block returns the mock development balance. -/
def algorandGetBalance (st : AlgorandState) (env : AlgoConnectEnv) (address : String) : String :=
  match env.accountMicroAlgos with
  | .ok amount => formatMicroAlgos amount
  | .error _ => "1.234567"

/-- AlgorandBlockchain.isWalletAvailable. -/
def algorandIsWalletAvailable (st : AlgorandState) (walletType : String) : Bool :=
  if walletType = "pera" then st.peraWallet
  else if walletType = "liquid" then true
  else if walletType = "walletconnect" then st.walletConnectClient
  else false

/-- AlgorandBlockchain.getSupportedWallets. -/
def algorandGetSupportedWallets : List String :=
  ["pera", "liquid", "walletconnect"]

/-- AlgorandBlockchain.connectPeraWallet.  The inner throw for an empty account list is
caught by its own catch clause, whose `rejected` substring test does not match it, so it
is rethrown unchanged. -/
def connectPeraWallet (st : AlgorandState) (env : AlgoConnectEnv) : Except String String :=
  if !st.peraWallet then .error "Pera Wallet not initialized"
  else
    match env.peraAccounts with
    | .ok [] => .error "No accounts returned from Pera Wallet"
    | .ok (a :: _) => .ok a
    | .error e =>
        if strIncludes e "rejected" then .error "Connection rejected by user"
        else .error e

/-- AlgorandBlockchain.connectWalletConnect: an already-connected client with accounts
resolves immediately; otherwise the promise settles with the `connect` event payload
(or the `createSession` rejection), and an empty payload account list rejects. -/
def connectWalletConnect (st : AlgorandState) (env : AlgoConnectEnv) : Except String String :=
  if !st.walletConnectClient then .error "WalletConnect not initialized"
  else if st.wcConnected && !env.wcAccounts.isEmpty then
    .ok (env.wcAccounts.headI)
  else
    match env.wcEvent with
    | .error e => .error e
    | .ok [] => .error "No accounts returned from WalletConnect"
    | .ok (a :: _) => .ok a

/-- AlgorandBlockchain.connectWallet.  Returns the thrown error or the new connection,
together with the updated instance state. -/
def algorandConnectWallet (st : AlgorandState) (env : AlgoConnectEnv) (walletType : String) :
    Except String WalletConnection × AlgorandState :=
  if !algorandIsWalletAvailable st walletType then
    (.error (walletType ++ " wallet is not available"), st)
  else
    let addressRes : Except String String :=
      if walletType = "pera" then connectPeraWallet st env
      else if walletType = "liquid" then
        .error "Liquid Wallet connection should be handled in component"
      else if walletType = "walletconnect" then connectWalletConnect st env
      else .error ("Unsupported Algorand wallet type: " ++ walletType)
    match addressRes with
    | .error e => (.error e, st)
    | .ok address =>
        let balance := algorandGetBalance st env address
        let conn : WalletConnection :=
          { address := address, balance := balance,
            chainId := if st.isTestnet then "algorand_testnet" else "algorand_mainnet",
            walletType := walletType }
        (.ok conn, { st with currentConnection := some conn })

/-- Outcomes of the transport disconnect calls awaited in AlgorandBlockchain.disconnectWallet. -/
structure AlgoDisconnectEnv where
  peraDisconnectRes : Except String Unit := .ok ()
  wcKillSessionRes : Except String Unit := .ok ()

/-- Catch block of AlgorandBlockchain.disconnectWallet: logs the error and swallows it. -/
def logAndSwallow (tryResult : Except String Unit) : Except String Unit :=
  match tryResult with
  | .ok _ => .ok ()
  | .error _ => .ok ()

theorem logAndSwallow_eq (x : Except String Unit) : logAndSwallow x = .ok () := by
  cases x <;> rfl

/-- AlgorandBlockchain.disconnectWallet: the catch block only logs, and the finally
block clears `currentConnection` on every path, so the method always resolves. -/
def algorandDisconnectWallet (st : AlgorandState) (env : AlgoDisconnectEnv) :
    Except String Unit × AlgorandState :=
  let tryResult : Except String Unit :=
    match st.currentConnection with
    | none => .ok ()
    | some conn =>
        if conn.walletType = "pera" then
          if st.peraWallet then env.peraDisconnectRes else .ok ()
        else if conn.walletType = "walletconnect" then
          if st.walletConnectClient && st.wcConnected then env.wcKillSessionRes else .ok ()
        else .ok ()
  (logAndSwallow tryResult, { st with currentConnection := none })

/-- Transaction record built by `algosdk.makeAssetCreateTxnWithSuggestedParamsFromObject`
in AlgorandBlockchain.mintNFT (suggested params abstracted away). -/
structure AssetCreateTxn where
  fromAddr : String
  defaultFrozen : Bool
  unitName : String
  assetName : String
  manager : String
  reserve : String
  freeze : String
  clawback : String
  total : Nat
  decimals : Nat
  assetURL : String
  assetMetadataHash : List Nat
deriving DecidableEq, Repr

/-- Construction of the asset-creation transaction from AlgorandBlockchain.mintNFT. -/
def makeAsaCreateTxn (conn : WalletConnection) (metadata : NFTMetadata)
    (metadataUrl : String) : AssetCreateTxn :=
  { fromAddr := conn.address, defaultFrozen := false, unitName := "MEME",
    assetName := metadata.name, manager := conn.address, reserve := conn.address,
    freeze := conn.address, clawback := conn.address, total := 1, decimals := 0,
    assetURL := metadataUrl, assetMetadataHash := List.replicate 32 0 }

/-- Steps of AlgorandBlockchain.mintNFT that touch an external collaborator or build
the transaction, in execution order. -/
inductive AlgoMintStep where
  | uploadImage
  | uploadMetadata (m : NFTMetadata)
  | getTransactionParams
  | constructTxn (t : AssetCreateTxn)
  | peraSign (t : AssetCreateTxn)
  | wcSign (t : AssetCreateTxn)
  | sendRawTransaction
  | waitForConfirmation (txId : String)
  | pendingInfo (txId : String)
deriving DecidableEq, Repr

/-- Outcomes of the awaited external calls in AlgorandBlockchain.mintNFT.  The two
upload helpers are I/O placeholders in the source (in production they upload to
IPFS/Arweave), so their outcomes are environment-provided; `rand` models the stream
of `Math.random()` draws used by generateMockTransactionId. -/
structure AlgoMintEnv where
  uploadImageRes : Except String String := .ok "https://ipfs.io/ipfs/mock"
  uploadMetadataRes : Except String String := .ok "https://ipfs.io/ipfs/mock"
  suggestedParamsRes : Except String Unit := .ok ()
  peraSignRes : Except String (List Nat) := .ok []
  wcSignRes : Except String String := .ok ""
  sendRawRes : Except String String := .ok "TXID"
  waitConfirmRes : Except String Unit := .ok ()
  pendingAssetIndex : Except String (Option Nat) := .ok (some 0)
  rand : Nat → Nat := fun _ => 0

/-- Alphabet used by AlgorandBlockchain.generateMockTransactionId. -/
def mockTxAlphabet : String := "ABCDEFGHIJKLMNOPQRSTUVWXYZ234567"

/-- AlgorandBlockchain.generateMockTransactionId: 52 draws from the 32-letter alphabet. -/
def generateMockTransactionId (rand : Nat → Nat) : String :=
  String.mk ((List.range 52).map fun i => mockTxAlphabet.toList.getD (rand i % 32) 'A')

/-- MintResult produced by the catch block of mintNFT for a thrown message. -/
def mintFailure (e : String) : MintResult :=
  { success := false, transactionHash := none, tokenId := none, error := some e }

/-- Output of a backend mintNFT call: the settled promise, the external steps taken,
and the instance state afterwards. -/
structure AlgoMintOut where
  res : Except String MintResult
  steps : List AlgoMintStep
  state : AlgorandState
deriving Repr

/-- Signing, submission and confirmation part of AlgorandBlockchain.mintNFT (from the
wallet-type dispatch onward).  Every throw inside this region is caught by the
enclosing catch block, which converts it into a failure MintResult. -/
def algorandSignSubmit (st : AlgorandState) (env : AlgoMintEnv) (conn : WalletConnection)
    (txn : AssetCreateTxn) : MintResult × List AlgoMintStep :=
  let afterSign : List AlgoMintStep → MintResult × List AlgoMintStep := fun signSteps =>
    match env.sendRawRes with
    | .error e => (mintFailure e, signSteps ++ [.sendRawTransaction])
    | .ok txId =>
        match env.waitConfirmRes with
        | .error e => (mintFailure e, signSteps ++ [.sendRawTransaction, .waitForConfirmation txId])
        | .ok _ =>
            match env.pendingAssetIndex with
            | .error e =>
                (mintFailure e,
                 signSteps ++ [.sendRawTransaction, .waitForConfirmation txId, .pendingInfo txId])
            | .ok assetId =>
                ({ success := true, transactionHash := some txId,
                   tokenId := assetId.map toString, error := none },
                 signSteps ++ [.sendRawTransaction, .waitForConfirmation txId, .pendingInfo txId])
  if conn.walletType = "pera" then
    if !st.peraWallet then (mintFailure "Pera Wallet not available", [])
    else
      match env.peraSignRes with
      | .error e => (mintFailure e, [.peraSign txn])
      | .ok _ => afterSign [.peraSign txn]
  else if conn.walletType = "walletconnect" then
    if !st.walletConnectClient then (mintFailure "WalletConnect not available", [])
    else
      match env.wcSignRes with
      | .error e => (mintFailure e, [.wcSign txn])
      | .ok _ => afterSign [.wcSign txn]
  else
    ({ success := true, transactionHash := some (generateMockTransactionId env.rand),
       tokenId := some "12345678", error := none }, [])

/-- AlgorandBlockchain.mintNFT.  The connection check precedes the try block, so its
throw escapes the method; every later throw is converted by the catch block into a
MintResult with `success := false`.  The instance state is never written. -/
def algorandMintNFT (st : AlgorandState) (env : AlgoMintEnv) (metadata : NFTMetadata)
    (imageData : String) : AlgoMintOut :=
  match st.currentConnection with
  | none => ⟨.error "Wallet not connected", [], st⟩
  | some conn =>
      match env.uploadImageRes with
      | .error e => ⟨.ok (mintFailure e), [.uploadImage], st⟩
      | .ok imageUrl =>
          let metadataWithImage := { metadata with image := imageUrl }
          match env.uploadMetadataRes with
          | .error e => ⟨.ok (mintFailure e), [.uploadImage, .uploadMetadata metadataWithImage], st⟩
          | .ok metadataUrl =>
              match env.suggestedParamsRes with
              | .error e =>
                  ⟨.ok (mintFailure e),
                   [.uploadImage, .uploadMetadata metadataWithImage, .getTransactionParams], st⟩
              | .ok _ =>
                  let txn := makeAsaCreateTxn conn metadata metadataUrl
                  let signed := algorandSignSubmit st env conn txn
                  ⟨.ok signed.1,
                   [.uploadImage, .uploadMetadata metadataWithImage, .getTransactionParams,
                    .constructTxn txn] ++ signed.2, st⟩

/-! ## EVM backend (src/utils/blockchain/evm.ts)

Instance fields of class EVMBlockchain.  `provider` and `signer` record whether
the corresponding fields have been assigned (they are `null` until the end of a
successful connect). -/
structure EVMState where
  provider : Bool := false
  signer : Bool := false
  currentConnection : Option WalletConnection := none
  chainId : String := "ethereum_sepolia"
deriving DecidableEq, Repr

/-- Error object thrown by a provider request (its `code` property drives the
unrecognized-chain fallback in switchNetwork). -/
structure ProviderError where
  code : Option Int := none
  message : String := ""
deriving DecidableEq, Repr

/-- Outcomes of the awaited provider calls made during EVMBlockchain.connectWallet,
getBalance and switchNetwork.  `ethereumInstalled` models `window.ethereum` being
present. -/
structure EvmEnv where
  ethereumInstalled : Bool := true
  requestAccountsRes : Except String Unit := .ok ()
  getAddressRes : Except String String := .ok "0xabc"
  getBalanceWei : Except String Nat := .error "network unavailable"
  getNetworkRes : Except String Nat := .ok 11155111
  switchRes : Except ProviderError Unit := .ok ()
  addRes : Except String Unit := .ok ()

/-- Provider requests issued through the injected in-page provider, plus the internal
invocation of the switchNetwork method, in issue order. -/
inductive ProviderCall where
  | requestAccounts
  | getBalanceCall (address : String)
  | getNetwork
  | callSwitchNetwork (chainId : String)
  | switchEthereumChain (hexChainId : String)
  | addEthereumChain (hexChainId : String) (chainName : String) (currency : NativeCurrency)
      (rpcUrls : List String) (blockExplorerUrls : List String)
deriving DecidableEq, Repr

/-- EVMBlockchain.extractChainIdFromConfig. -/
def extractChainIdFromConfig (chainConfig : ChainConfig) : String :=
  if chainConfig.id = "ethereum_sepolia" then "11155111"
  else if chainConfig.id = "base_sepolia" then "84532"
  else if chainConfig.id = "polygon_mumbai" then "80001"
  else "1"

/-- Hex chain-id parameter sent to the wallet: `0x` followed by
`parseInt(extractChainIdFromConfig(cfg)).toString(16)`. -/
def hexChainParam (chainConfig : ChainConfig) : String :=
  "0x" ++ natToHex (parseIntDec (extractChainIdFromConfig chainConfig))

/-- EVMBlockchain.isWalletAvailable. -/
def evmIsWalletAvailable (env : EvmEnv) (walletType : String) : Bool :=
  if walletType = "metamask" then env.ethereumInstalled
  else if walletType = "walletconnect" then true
  else if walletType = "coinbase" then true
  else false

/-- EVMBlockchain.getSupportedWallets. -/
def evmGetSupportedWallets : List String :=
  ["metamask", "walletconnect", "coinbase"]

/-- Model of `ethers.formatEther`: wei rendered as a decimal ether string with
trailing fractional zeros removed and at least one fractional digit kept. -/
def formatEther (wei : Nat) : String :=
  let ip := wei / 1000000000000000000
  let fracDigits := padLeftZeros 18 (toString (wei % 1000000000000000000))
  let trimmed := String.mk ((fracDigits.toList.reverse.dropWhile (· == '0')).reverse)
  toString ip ++ "." ++ (if trimmed = "" then "0" else trimmed)

/-- EVMBlockchain.getBalance: with no provider assigned the catch block returns the
mock balance; with a provider, a failing balance query is likewise caught. -/
def evmGetBalance (st : EVMState) (env : EvmEnv) (address : String) :
    String × List ProviderCall :=
  if !st.provider then ("0.1234", [])
  else
    match env.getBalanceWei with
    | .ok wei => (formatEther wei, [.getBalanceCall address])
    | .error _ => ("0.1234", [.getBalanceCall address])

/-- EVMBlockchain.addNetwork. -/
def evmAddNetwork (st : EVMState) (env : EvmEnv) (chainConfig : ChainConfig) :
    Except String Unit × List ProviderCall :=
  if !st.provider then (.error "Provider not initialized", [])
  else
    let call := ProviderCall.addEthereumChain (hexChainParam chainConfig)
      chainConfig.displayName chainConfig.nativeCurrency chainConfig.rpcUrls
      chainConfig.blockExplorerUrls
    match env.addRes with
    | .ok _ => (.ok (), [call])
    | .error e => (.error e, [call])

/-- EVMBlockchain.switchNetwork.  On a rejection with code 4902 the chain is added
via addNetwork and the method returns; no second switch request is issued and
`this.chainId` is not reassigned on that path. -/
def evmSwitchNetwork (st : EVMState) (env : EvmEnv) (chainId : String) :
    Except String Unit × List ProviderCall × EVMState :=
  if !st.provider then (.error "Provider not initialized", [], st)
  else
    match getChainConfig chainId with
    | none => (.error ("Chain " ++ chainId ++ " not supported"), [], st)
    | some chainConfig =>
        let switchCall := ProviderCall.switchEthereumChain (hexChainParam chainConfig)
        match env.switchRes with
        | .ok _ => (.ok (), [switchCall], { st with chainId := chainId })
        | .error e =>
            if e.code = some 4902 then
              let added := evmAddNetwork st env chainConfig
              (added.1, switchCall :: added.2, st)
            else (.error e.message, [switchCall], st)

/-- EVMBlockchain.connectWallet.  The local provider object is created before
`this.provider` is assigned, so getBalance and switchNetwork observe the previous
value of `this.provider` during the connect. -/
def evmConnectWallet (st : EVMState) (env : EvmEnv) (walletType : String) :
    Except String WalletConnection × List ProviderCall × EVMState :=
  if !evmIsWalletAvailable env walletType then
    (.error (walletType ++ " wallet is not available"), [], st)
  else if walletType = "walletconnect" then
    (.error "WalletConnect not implemented yet", [], st)
  else if walletType = "coinbase" then
    (.error "Coinbase Wallet not implemented yet", [], st)
  else if walletType ≠ "metamask" then
    (.error ("Unsupported wallet type: " ++ walletType), [], st)
  else if !env.ethereumInstalled then
    (.error "MetaMask is not installed", [], st)
  else
    match env.requestAccountsRes with
    | .error e => (.error e, [.requestAccounts], st)
    | .ok _ =>
        match env.getAddressRes with
        | .error e => (.error e, [.requestAccounts], st)
        | .ok address =>
            let bal := evmGetBalance st env address
            match env.getNetworkRes with
            | .error e => (.error e, [.requestAccounts] ++ bal.2 ++ [.getNetwork], st)
            | .ok networkChainId =>
                let tracePre := [ProviderCall.requestAccounts] ++ bal.2 ++ [.getNetwork]
                let finish : EVMState → List ProviderCall →
                    Except String WalletConnection × List ProviderCall × EVMState :=
                  fun st2 trace =>
                    let conn : WalletConnection :=
                      { address := address, balance := bal.1, chainId := st2.chainId,
                        walletType := walletType }
                    (.ok conn, trace,
                     { st2 with provider := true, signer := true,
                                currentConnection := some conn })
                match getChainConfig st.chainId with
                | some chainConfig =>
                    if toString networkChainId ≠ extractChainIdFromConfig chainConfig then
                      let sw := evmSwitchNetwork st env st.chainId
                      let trace := tracePre ++ [.callSwitchNetwork st.chainId] ++ sw.2.1
                      match sw.1 with
                      | .error e => (.error e, trace, sw.2.2)
                      | .ok _ => finish sw.2.2 trace
                    else finish st tracePre
                | none => finish st tracePre

/-- EVMBlockchain.disconnectWallet. -/
def evmDisconnectWallet (st : EVMState) : EVMState :=
  { st with provider := false, signer := false, currentConnection := none }

/-- Steps of EVMBlockchain.mintNFT that touch an external collaborator. -/
inductive EvmMintStep where
  | uploadImage
  | uploadMetadata (m : NFTMetadata)
deriving DecidableEq, Repr

/-- Outcomes of the awaited steps in EVMBlockchain.mintNFT; the uploads are I/O
placeholders in the source, `randHash` models the `Math.random()` stream of
generateMockTransactionHash and `randToken` the draw for the mock token id. -/
structure EvmMintEnv where
  uploadImageRes : Except String String := .ok "https://ipfs.io/ipfs/mock"
  uploadMetadataRes : Except String String := .ok "https://ipfs.io/ipfs/mock"
  randHash : Nat → Nat := fun _ => 0
  randToken : Nat := 0

/-- Hex alphabet of EVMBlockchain.generateMockTransactionHash. -/
def mockHexAlphabet : String := "0123456789abcdef"

/-- EVMBlockchain.generateMockTransactionHash: `0x` plus 64 hex draws. -/
def generateMockTransactionHash (rand : Nat → Nat) : String :=
  "0x" ++ String.mk ((List.range 64).map fun i => mockHexAlphabet.toList.getD (rand i % 16) '0')

/-- Output of EVMBlockchain.mintNFT. -/
structure EvmMintOut where
  res : Except String MintResult
  steps : List EvmMintStep
  state : EVMState
deriving Repr

/-- EVMBlockchain.mintNFT.  The connection-and-signer check precedes the try block,
so its throw escapes the method; inside the try every failure is converted by the
catch block into a MintResult with `success := false`. -/
def evmMintNFT (st : EVMState) (env : EvmMintEnv) (metadata : NFTMetadata)
    (imageData : String) : EvmMintOut :=
  if st.currentConnection.isNone || !st.signer then
    ⟨.error "Wallet not connected", [], st⟩
  else
    match env.uploadImageRes with
    | .error e => ⟨.ok (mintFailure e), [.uploadImage], st⟩
    | .ok imageUrl =>
        let metadataWithImage := { metadata with image := imageUrl }
        match env.uploadMetadataRes with
        | .error e => ⟨.ok (mintFailure e), [.uploadImage, .uploadMetadata metadataWithImage], st⟩
        | .ok _ =>
            ⟨.ok { success := true,
                   transactionHash := some (generateMockTransactionHash env.randHash),
                   tokenId := some (toString (env.randToken % 10000)), error := none },
             [.uploadImage, .uploadMetadata metadataWithImage], st⟩

/-! ## Orchestration context (src/context/BlockchainContext.tsx)

The React state updates run sequentially per operation; the closure variable
`blockchainState` read inside an operation is the state current when the
operation started, and functional `setBlockchainState(prev => ...)` updates see
the latest state.  `localStorage` is modelled by a record with the two keys the
context uses; `JSON.stringify`/`JSON.parse` of the connection map round-trip
exactly, so the stored value is modelled as the map itself (key present iff
`getItem` returns a non-null string). -/

/-- BlockchainState from src/types/blockchain.ts (the constant `supportedChains`
field always holds `Object.values(SUPPORTED_CHAINS)` and is omitted from state
updates below, which never touch it). -/
structure BlockchainState where
  isConnected : Bool
  activeChain : Option String
  connections : List (String × WalletConnection)
  isConnecting : Bool
  error : Option String
deriving DecidableEq, Repr

/-- Initial context state. -/
def initialState : BlockchainState :=
  { isConnected := false, activeChain := none, connections := [],
    isConnecting := false, error := none }

/-- The two localStorage keys used by the context. -/
structure LocalStorage where
  blockchain_connections : Option (List (String × WalletConnection))
  active_chain : Option String
deriving DecidableEq, Repr

def emptyStorage : LocalStorage :=
  { blockchain_connections := none, active_chain := none }

/-- Observable events of a context operation: React state transitions and
localStorage writes, in program order. -/
inductive CtxEvent where
  | setState (st : BlockchainState)
  | setItem (key : String)
  | removeItem (key : String)
deriving DecidableEq, Repr

/-- Result of one context operation. -/
structure CtxResult where
  state : BlockchainState
  storage : LocalStorage
  res : Except String Unit
  events : List CtxEvent
deriving Repr

/-- Whether a blockchain instance exists for the chain id (instances are constructed
eagerly for every SUPPORTED_CHAINS key). -/
def registryHasChain (chainId : String) : Bool :=
  (getChainConfig chainId).isSome

/-- saveConnections from the context: writes the connection map, and writes the
active-chain key only when the new active chain is non-null (a null active chain
leaves the previously stored key untouched). -/
def saveConnections (sto : LocalStorage) (connections : List (String × WalletConnection))
    (activeChain : Option String) : LocalStorage × List CtxEvent :=
  let sto1 := { sto with blockchain_connections := some connections }
  match activeChain with
  | some c =>
      ({ sto1 with active_chain := some c },
       [.setItem "blockchain_connections", .setItem "active_chain"])
  | none => (sto1, [.setItem "blockchain_connections"])

/-- Context connectWallet.  `backendRes` is the settled result of the delegated
`blockchainInstance.connectWallet(walletType)` call.  The success state is built
from the closure snapshot of the state (so `error` keeps its pre-call value),
with `isConnecting` explicitly cleared. -/
def ctxConnectWallet (st : BlockchainState) (sto : LocalStorage) (chainId : String)
    (backendRes : Except String WalletConnection) : CtxResult :=
  let st1 := { st with isConnecting := true, error := none }
  if !registryHasChain chainId then
    let msg := "Blockchain instance for " ++ chainId ++ " not found"
    let stF := { st1 with isConnecting := false, error := some msg }
    ⟨stF, sto, .error msg, [.setState st1, .setState stF]⟩
  else
    match backendRes with
    | .error e =>
        let stF := { st1 with isConnecting := false, error := some e }
        ⟨stF, sto, .error e, [.setState st1, .setState stF]⟩
    | .ok connection =>
        let newConnections := objSet st.connections chainId connection
        let newState := { st with isConnected := true, activeChain := some chainId,
                                  connections := newConnections, isConnecting := false }
        let saved := saveConnections sto newConnections (some chainId)
        ⟨newState, saved.1, .ok (), [.setState st1, .setState newState] ++ saved.2⟩

/-- Context disconnectWallet with a chain id: removes that entry, reassigns the
active chain to the first remaining key (or null), and persists.  The backend
disconnect calls never reject (the Algorand backend swallows transport errors and
the EVM backend only clears fields), so the catch path is not taken. -/
def ctxDisconnectOne (st : BlockchainState) (sto : LocalStorage) (chainId : String) :
    CtxResult :=
  let newConnections := objDelete st.connections chainId
  let newActiveChain :=
    if st.activeChain = some chainId then jsHeadOrNull (objKeys newConnections).head?
    else st.activeChain
  let newState := { st with connections := newConnections, activeChain := newActiveChain,
                            isConnected := !newConnections.isEmpty }
  let saved := saveConnections sto newConnections newActiveChain
  ⟨newState, saved.1, .ok (), [.setState newState] ++ saved.2⟩

/-- Context disconnectWallet with no argument: disconnects every connected backend,
clears the state and removes both storage keys. -/
def ctxDisconnectAll (st : BlockchainState) (sto : LocalStorage) : CtxResult :=
  let newState := { st with isConnected := false, activeChain := none, connections := [] }
  ⟨newState, { sto with blockchain_connections := none, active_chain := none }, .ok (),
   [.setState newState, .removeItem "blockchain_connections", .removeItem "active_chain"]⟩

/-- Context switchChain: requires an existing connection for the chain, then only
repoints the active chain and persists it. -/
def ctxSwitchChain (st : BlockchainState) (sto : LocalStorage) (chainId : String) :
    CtxResult :=
  if (objGet st.connections chainId).isNone then
    ⟨st, sto, .error ("Not connected to " ++ chainId ++ ". Please connect first."), []⟩
  else
    let st1 := { st with activeChain := some chainId }
    ⟨st1, { sto with active_chain := some chainId }, .ok (),
     [.setState st1, .setItem "active_chain"]⟩

/-- Restoration effect run at mount: if the connections key is present (a stored
string, even "\x7b\x7d", is truthy), the parsed map is installed and the active
chain becomes the stored value or DEFAULT_CHAIN. -/
def ctxRestore (st : BlockchainState) (sto : LocalStorage) : BlockchainState :=
  match sto.blockchain_connections with
  | none => st
  | some connections =>
      { st with connections := connections,
                activeChain := some (jsOr sto.active_chain DEFAULT_CHAIN),
                isConnected := !connections.isEmpty }

/-- Context mintNFT: guards on an active connection, then delegates; `backendRes`
is the settled result of the backend mint.  The context state is never written. -/
def ctxMintNFT (st : BlockchainState) (backendRes : Except String MintResult) :
    Except String MintResult × BlockchainState :=
  if !jsTruthy st.activeChain || !st.isConnected then
    (.error "No active blockchain connection", st)
  else if !registryHasChain (jsOr st.activeChain "") then
    (.error ("Blockchain instance for " ++ jsOr st.activeChain "" ++ " not found"), st)
  else (backendRes, st)

/-- One mutating context operation together with the settled backend result it
depends on (for connectWallet). -/
inductive CtxOp where
  | connect (chainId : String) (backendRes : Except String WalletConnection)
  | disconnectOne (chainId : String)
  | disconnectAll
  | switchTo (chainId : String)

/-- Application of one context operation to the state and storage. -/
def applyCtxOp (p : BlockchainState × LocalStorage) : CtxOp → BlockchainState × LocalStorage
  | .connect chainId backendRes =>
      let r := ctxConnectWallet p.1 p.2 chainId backendRes
      (r.state, r.storage)
  | .disconnectOne chainId =>
      let r := ctxDisconnectOne p.1 p.2 chainId
      (r.state, r.storage)
  | .disconnectAll =>
      let r := ctxDisconnectAll p.1 p.2
      (r.state, r.storage)
  | .switchTo chainId =>
      let r := ctxSwitchChain p.1 p.2 chainId
      (r.state, r.storage)

/-- Invariant of claim C3: a non-null active chain has an entry in the connection map. -/
def activeChainValid (st : BlockchainState) : Bool :=
  match st.activeChain with
  | none => true
  | some c => (objGet st.connections c).isSome

/-- Agreement between persisted storage and in-memory state: the stored connection
map (absent keys read back as an empty map) matches `connections`, and the stored
active-chain key (absent key read back as null) matches `activeChain`. -/
def storageAgrees (st : BlockchainState) (sto : LocalStorage) : Prop :=
  sto.blockchain_connections.getD [] = st.connections ∧ sto.active_chain = st.activeChain

instance (st : BlockchainState) (sto : LocalStorage) : Decidable (storageAgrees st sto) := by
  unfold storageAgrees; infer_instance

/-- Supported wallet list of the backend instance constructed for a registry chain id
(an Algorand instance for configs named "algorand", an EVM instance otherwise). -/
def getSupportedWalletsFor (chainId : String) : List String :=
  match getChainConfig chainId with
  | some cfg =>
      if cfg.name = "algorand" then algorandGetSupportedWallets else evmGetSupportedWallets
  | none => []

/-- Whether a provider call is a `wallet_switchEthereumChain` request. -/
def isSwitchCall : ProviderCall → Bool
  | .switchEthereumChain _ => true
  | _ => false

/-- Whether a context event is a localStorage write. -/
def isStorageEvent : CtxEvent → Bool
  | .setItem _ => true
  | .removeItem _ => true
  | .setState _ => false

/-- Once a storage write appears in the event list, no further state transition
follows: every persisted write happens after the in-memory transitions. -/
def storageWritesLast : List CtxEvent → Bool
  | [] => true
  | e :: rest => if isStorageEvent e then rest.all isStorageEvent else storageWritesLast rest

/-! ## Theorems -/

/-- Claim C10: AlgorandBlockchain.disconnectWallet never throws and always leaves
`currentConnection` null, for every prior connection state and every outcome of the
transport disconnect or session-kill calls. -/
theorem C10_algorand_disconnect_total (st : AlgorandState) (env : AlgoDisconnectEnv) :
    algorandDisconnectWallet st env = (.ok (), { st with currentConnection := none }) := by
  simp [algorandDisconnectWallet, logAndSwallow_eq]

/-- Claim C6: disconnecting with no argument empties the connection map, nulls the
active chain, clears `isConnected`, removes both storage keys, and is idempotent:
a second call from the resulting state and storage returns the identical result. -/
theorem C6_disconnect_all_idempotent (st : BlockchainState) (sto : LocalStorage) :
    (ctxDisconnectAll st sto).state.connections = [] ∧
    (ctxDisconnectAll st sto).state.activeChain = none ∧
    (ctxDisconnectAll st sto).state.isConnected = false ∧
    (ctxDisconnectAll st sto).storage.blockchain_connections = none ∧
    (ctxDisconnectAll st sto).storage.active_chain = none ∧
    ctxDisconnectAll (ctxDisconnectAll st sto).state (ctxDisconnectAll st sto).storage =
      ctxDisconnectAll st sto := by
  exact ⟨rfl, rfl, rfl, rfl, rfl, rfl⟩

/-! Sample values used by witnesses and counterexamples. -/

def sampleMeta : NFTMetadata :=
  { name := "Sample Meme", description := "demo", image := "" }

def sampleAlgoConn : WalletConnection :=
  { address := "SAMPLEALGOADDR", balance := "1.234567", chainId := "algorand_testnet",
    walletType := "pera" }

def sampleEvmConn : WalletConnection :=
  { address := "0xabc", balance := "0.1234", chainId := "ethereum_sepolia",
    walletType := "metamask" }

/-- Claim C7: when a backend mint with a connection in place sees the image upload
throw with message m, the mint resolves to a failure MintResult carrying m, no
transaction is constructed or submitted (the step trace stops at the upload), the
backend connection state is unchanged, and the orchestration context state is
untouched by mintNFT. -/
theorem C7_upload_failure_isolated (st : AlgorandState) (est : EVMState)
    (aenv : AlgoMintEnv) (eenv : EvmMintEnv) (md : NFTMetadata) (img : String)
    (conn econn : WalletConnection) (m : String)
    (bst : BlockchainState) (bres : Except String MintResult)
    (hA : st.currentConnection = some conn) (hAe : aenv.uploadImageRes = .error m)
    (hE : est.currentConnection = some econn) (hEs : est.signer = true)
    (hEe : eenv.uploadImageRes = .error m) :
    algorandMintNFT st aenv md img = ⟨.ok (mintFailure m), [.uploadImage], st⟩ ∧
    evmMintNFT est eenv md img = ⟨.ok (mintFailure m), [.uploadImage], est⟩ ∧
    (ctxMintNFT bst bres).2 = bst := by
  refine ⟨?_, ?_, ?_⟩
  · unfold algorandMintNFT
    rw [hA, hAe]
  · simp [evmMintNFT, hE, hEs, hEe]
  · unfold ctxMintNFT
    split_ifs <;> rfl

def c7AlgoState : AlgorandState := { currentConnection := some sampleAlgoConn }

def c7EvmState : EVMState :=
  { provider := true, signer := true, currentConnection := some sampleEvmConn }

def c7AlgoEnv : AlgoMintEnv := { uploadImageRes := .error "upload failed" }

def c7EvmEnv : EvmMintEnv := { uploadImageRes := .error "upload failed" }

/-- Witness for claim C7 at a concrete connected state and failing upload. -/
theorem C7_upload_failure_isolated_witness :
    c7AlgoState.currentConnection = some sampleAlgoConn ∧
    c7AlgoEnv.uploadImageRes = .error "upload failed" ∧
    c7EvmState.currentConnection = some sampleEvmConn ∧
    c7EvmState.signer = true ∧
    c7EvmEnv.uploadImageRes = .error "upload failed" ∧
    (algorandMintNFT c7AlgoState c7AlgoEnv sampleMeta "img"
        = ⟨.ok (mintFailure "upload failed"), [.uploadImage], c7AlgoState⟩ ∧
     evmMintNFT c7EvmState c7EvmEnv sampleMeta "img"
        = ⟨.ok (mintFailure "upload failed"), [.uploadImage], c7EvmState⟩ ∧
     (ctxMintNFT initialState (.ok (mintFailure "upload failed"))).2 = initialState) :=
  ⟨rfl, rfl, rfl, rfl, rfl,
   C7_upload_failure_isolated c7AlgoState c7EvmState c7AlgoEnv c7EvmEnv sampleMeta "img"
     sampleAlgoConn sampleEvmConn "upload failed" initialState
     (.ok (mintFailure "upload failed")) rfl rfl rfl rfl rfl⟩

/-- Claim C8: every Algorand mint that reaches transaction construction builds an
asset-creation transaction with total supply 1, decimals 0, and manager, reserve,
freeze and clawback all equal to the connected account address. -/
theorem C8_asa_txn_fields (st : AlgorandState) (env : AlgoMintEnv) (md : NFTMetadata)
    (img : String) (conn : WalletConnection) (u murl : String)
    (hc : st.currentConnection = some conn) (hu : env.uploadImageRes = .ok u)
    (hm : env.uploadMetadataRes = .ok murl) (hp : env.suggestedParamsRes = .ok ()) :
    AlgoMintStep.constructTxn (makeAsaCreateTxn conn md murl)
        ∈ (algorandMintNFT st env md img).steps ∧
    (makeAsaCreateTxn conn md murl).total = 1 ∧
    (makeAsaCreateTxn conn md murl).decimals = 0 ∧
    (makeAsaCreateTxn conn md murl).manager = conn.address ∧
    (makeAsaCreateTxn conn md murl).reserve = conn.address ∧
    (makeAsaCreateTxn conn md murl).freeze = conn.address ∧
    (makeAsaCreateTxn conn md murl).clawback = conn.address := by
  refine ⟨?_, rfl, rfl, rfl, rfl, rfl, rfl⟩
  unfold algorandMintNFT
  rw [hc, hu, hm, hp]
  simp

/-- Witness for claim C8 at a concrete connected state and succeeding uploads. -/
theorem C8_asa_txn_fields_witness :
    c7AlgoState.currentConnection = some sampleAlgoConn ∧
    (AlgoMintEnv.mk (.ok "https://ipfs.io/ipfs/img") (.ok "https://ipfs.io/ipfs/meta")
        (.ok ()) (.ok []) (.ok "") (.ok "TXID") (.ok ()) (.ok (some 7)) (fun _ => 0)).uploadImageRes
      = .ok "https://ipfs.io/ipfs/img" ∧
    (AlgoMintStep.constructTxn (makeAsaCreateTxn sampleAlgoConn sampleMeta "https://ipfs.io/ipfs/meta")
        ∈ (algorandMintNFT c7AlgoState
            (AlgoMintEnv.mk (.ok "https://ipfs.io/ipfs/img") (.ok "https://ipfs.io/ipfs/meta")
              (.ok ()) (.ok []) (.ok "") (.ok "TXID") (.ok ()) (.ok (some 7)) (fun _ => 0))
            sampleMeta "img").steps ∧
     (makeAsaCreateTxn sampleAlgoConn sampleMeta "https://ipfs.io/ipfs/meta").total = 1 ∧
     (makeAsaCreateTxn sampleAlgoConn sampleMeta "https://ipfs.io/ipfs/meta").decimals = 0 ∧
     (makeAsaCreateTxn sampleAlgoConn sampleMeta "https://ipfs.io/ipfs/meta").manager
        = sampleAlgoConn.address ∧
     (makeAsaCreateTxn sampleAlgoConn sampleMeta "https://ipfs.io/ipfs/meta").reserve
        = sampleAlgoConn.address ∧
     (makeAsaCreateTxn sampleAlgoConn sampleMeta "https://ipfs.io/ipfs/meta").freeze
        = sampleAlgoConn.address ∧
     (makeAsaCreateTxn sampleAlgoConn sampleMeta "https://ipfs.io/ipfs/meta").clawback
        = sampleAlgoConn.address) :=
  ⟨rfl, rfl,
   C8_asa_txn_fields c7AlgoState
     (AlgoMintEnv.mk (.ok "https://ipfs.io/ipfs/img") (.ok "https://ipfs.io/ipfs/meta")
       (.ok ()) (.ok []) (.ok "") (.ok "TXID") (.ok ()) (.ok (some 7)) (fun _ => 0))
     sampleMeta "img" sampleAlgoConn "https://ipfs.io/ipfs/img" "https://ipfs.io/ipfs/meta"
     rfl rfl rfl rfl⟩

/-- Claim C9: an Algorand mint with a connection whose wallet type is neither
`pera` nor `walletconnect` takes the development default branch: no signing,
submission or confirmation step runs, and the result is success with a freshly
generated 52-character mock transaction id and token id "12345678". -/
theorem C9_default_wallet_mock_mint (st : AlgorandState) (env : AlgoMintEnv)
    (md : NFTMetadata) (img : String) (conn : WalletConnection) (u murl : String)
    (hc : st.currentConnection = some conn)
    (h1 : conn.walletType ≠ "pera") (h2 : conn.walletType ≠ "walletconnect")
    (hu : env.uploadImageRes = .ok u) (hm : env.uploadMetadataRes = .ok murl)
    (hp : env.suggestedParamsRes = .ok ()) :
    algorandMintNFT st env md img =
      ⟨.ok { success := true,
             transactionHash := some (generateMockTransactionId env.rand),
             tokenId := some "12345678", error := none },
       [.uploadImage, .uploadMetadata { md with image := u }, .getTransactionParams,
        .constructTxn (makeAsaCreateTxn conn md murl)], st⟩ ∧
    (generateMockTransactionId env.rand).length = 52 := by
  constructor
  · unfold algorandMintNFT algorandSignSubmit
    rw [hc, hu, hm, hp]
    simp [h1, h2]
  · have h : ∀ l : List Char, (String.mk l).length = l.length := fun _ => rfl
    unfold generateMockTransactionId
    rw [h, List.length_map, List.length_range]

def c9Conn : WalletConnection :=
  { address := "LIQUIDADDR", balance := "1.234567", chainId := "algorand_testnet",
    walletType := "liquid" }

def c9State : AlgorandState := { currentConnection := some c9Conn }

/-- Witness for claim C9 with a concrete `liquid` connection and succeeding uploads. -/
theorem C9_default_wallet_mock_mint_witness :
    c9State.currentConnection = some c9Conn ∧
    c9Conn.walletType ≠ "pera" ∧ c9Conn.walletType ≠ "walletconnect" ∧
    (algorandMintNFT c9State {} sampleMeta "img" =
       ⟨.ok { success := true,
              transactionHash := some (generateMockTransactionId ({} : AlgoMintEnv).rand),
              tokenId := some "12345678", error := none },
        [.uploadImage, .uploadMetadata { sampleMeta with image := "https://ipfs.io/ipfs/mock" },
         .getTransactionParams,
         .constructTxn (makeAsaCreateTxn c9Conn sampleMeta "https://ipfs.io/ipfs/mock")], c9State⟩ ∧
     (generateMockTransactionId ({} : AlgoMintEnv).rand).length = 52) :=
  ⟨rfl, by decide, by decide,
   C9_default_wallet_mock_mint c9State {} sampleMeta "img" c9Conn
     "https://ipfs.io/ipfs/mock" "https://ipfs.io/ipfs/mock" rfl (by decide) (by decide)
     rfl rfl rfl⟩

/-- Claim C1 (amended): a backend mintNFT called without a connection throws the
error `Wallet not connected` before any upload or transport step runs (the throw
precedes the try block), and with a connection in place mintNFT never throws: every
internal failure is returned as a MintResult. -/
theorem C1_mint_connection_guard
    (ast : AlgorandState) (aenv : AlgoMintEnv)
    (est : EVMState) (eenv : EvmMintEnv)
    (ast2 : AlgorandState) (aenv2 : AlgoMintEnv) (conn2 : WalletConnection)
    (est2 : EVMState) (eenv2 : EvmMintEnv) (conn3 : WalletConnection)
    (md : NFTMetadata) (img : String)
    (ha : ast.currentConnection = none)
    (he : est.currentConnection = none ∨ est.signer = false)
    (hc2 : ast2.currentConnection = some conn2)
    (hc3 : est2.currentConnection = some conn3) (hs3 : est2.signer = true) :
    algorandMintNFT ast aenv md img = ⟨.error "Wallet not connected", [], ast⟩ ∧
    evmMintNFT est eenv md img = ⟨.error "Wallet not connected", [], est⟩ ∧
    (∃ r, (algorandMintNFT ast2 aenv2 md img).res = .ok r) ∧
    (∃ r, (evmMintNFT est2 eenv2 md img).res = .ok r) := by
  refine ⟨?_, ?_, ?_, ?_⟩
  · unfold algorandMintNFT
    rw [ha]
  · rcases he with h | h <;> simp [evmMintNFT, h]
  · unfold algorandMintNFT
    rw [hc2]
    rcases aenv2.uploadImageRes with e | u
    · exact ⟨mintFailure e, rfl⟩
    · rcases aenv2.uploadMetadataRes with e | murl
      · exact ⟨mintFailure e, rfl⟩
      · rcases aenv2.suggestedParamsRes with e | p
        · exact ⟨mintFailure e, rfl⟩
        · exact ⟨_, rfl⟩
  · simp only [evmMintNFT, hc3, hs3]
    rcases eenv2.uploadImageRes with e | u
    · exact ⟨mintFailure e, by simp⟩
    · rcases eenv2.uploadMetadataRes with e | murl
      · exact ⟨mintFailure e, by simp⟩
      · exact ⟨{ success := true,
                 transactionHash := some (generateMockTransactionHash eenv2.randHash),
                 tokenId := some (toString (eenv2.randToken % 10000)), error := none },
               by simp⟩

def c1AlgoState : AlgorandState := { currentConnection := none }

def c1EvmState : EVMState := {}

/-- Counterexample for claim C1 as stated: with no connection, mintNFT on both
backends throws (`Except.error`) instead of returning a success-false MintResult,
though indeed no transport step is invoked. -/
theorem C1_counterexample :
    (algorandMintNFT c1AlgoState {} sampleMeta "img").res = .error "Wallet not connected" ∧
    (algorandMintNFT c1AlgoState {} sampleMeta "img").steps = [] ∧
    (evmMintNFT c1EvmState {} sampleMeta "img").res = .error "Wallet not connected" ∧
    (evmMintNFT c1EvmState {} sampleMeta "img").steps = [] :=
  ⟨rfl, rfl, rfl, rfl⟩

/-- Witness for claim C1 (amended) at concrete disconnected and connected states. -/
theorem C1_mint_connection_guard_witness :
    c1AlgoState.currentConnection = none ∧
    (c1EvmState.currentConnection = none ∨ c1EvmState.signer = false) ∧
    c7AlgoState.currentConnection = some sampleAlgoConn ∧
    c7EvmState.currentConnection = some sampleEvmConn ∧
    c7EvmState.signer = true ∧
    (algorandMintNFT c1AlgoState {} sampleMeta "img" = ⟨.error "Wallet not connected", [], c1AlgoState⟩ ∧
     evmMintNFT c1EvmState {} sampleMeta "img" = ⟨.error "Wallet not connected", [], c1EvmState⟩ ∧
     (∃ r, (algorandMintNFT c7AlgoState {} sampleMeta "img").res = .ok r) ∧
     (∃ r, (evmMintNFT c7EvmState {} sampleMeta "img").res = .ok r)) :=
  ⟨rfl, Or.inl rfl, rfl, rfl, rfl,
   C1_mint_connection_guard c1AlgoState {} c1EvmState {} c7AlgoState {} sampleAlgoConn
     c7EvmState {} sampleEvmConn sampleMeta "img" rfl (Or.inl rfl) rfl rfl rfl⟩

/-- Claim C4 (amended): every registry chain's backend reports a non-empty supported
wallet list, but not every listed wallet type is accepted by connectWallet: the
Algorand backend rejects `liquid` (connection is to be handled in a component) and
the EVM backend rejects `walletconnect` and `coinbase` as not implemented, while
`pera` and `walletconnect` (Algorand) and `metamask` (EVM) are dispatched to their
transport and connect successfully under a well-behaved transport. -/
theorem C4_supported_wallets (st : AlgorandState) (env : AlgoConnectEnv)
    (est : EVMState) (eenv : EvmEnv) (a : String) (accs : List String)
    (w : String) (ws : List String) (a2 : String)
    (hpera : st.peraWallet = true) (hacc : env.peraAccounts = .ok (a :: accs))
    (hwClient : st.walletConnectClient = true) (hwConn : st.wcConnected = false)
    (hwEvent : env.wcEvent = .ok (w :: ws))
    (heth : eenv.ethereumInstalled = true) (hreq : eenv.requestAccountsRes = .ok ())
    (haddr : eenv.getAddressRes = .ok a2) (hnet : eenv.getNetworkRes = .ok 11155111)
    (hchain : est.chainId = "ethereum_sepolia") (hprov : est.provider = false) :
    SUPPORTED_CHAINS.all (fun p => !(getSupportedWalletsFor p.1).isEmpty) = true ∧
    (algorandConnectWallet st env "liquid").1
      = .error "Liquid Wallet connection should be handled in component" ∧
    (evmConnectWallet est eenv "walletconnect").1
      = .error "WalletConnect not implemented yet" ∧
    (evmConnectWallet est eenv "coinbase").1
      = .error "Coinbase Wallet not implemented yet" ∧
    (∃ c, (algorandConnectWallet st env "pera").1 = .ok c) ∧
    (∃ c, (algorandConnectWallet st env "walletconnect").1 = .ok c) ∧
    (∃ c, (evmConnectWallet est eenv "metamask").1 = .ok c) := by
  refine ⟨by decide, ?_, ?_, ?_, ?_, ?_, ?_⟩
  · simp [algorandConnectWallet, algorandIsWalletAvailable]
  · simp [evmConnectWallet, evmIsWalletAvailable]
  · simp [evmConnectWallet, evmIsWalletAvailable]
  · simp [algorandConnectWallet, algorandIsWalletAvailable, hpera, connectPeraWallet, hacc]
  · simp [algorandConnectWallet, algorandIsWalletAvailable, hwClient, connectWalletConnect,
      hwConn, hwEvent]
  · have ht : toString (11155111 : Nat) = "11155111" := rfl
    simp [evmConnectWallet, evmIsWalletAvailable, heth, hreq, haddr, hnet, hchain,
      evmGetBalance, hprov, getChainConfig, SUPPORTED_CHAINS, objGet,
      extractChainIdFromConfig, ethereumSepoliaConfig, ht]

/-- Counterexample for claim C4 as stated: `liquid` is in the Algorand backend's
supported wallet list, yet connectWallet always rejects it. -/
theorem C4_counterexample :
    "liquid" ∈ getSupportedWalletsFor "algorand_testnet" ∧
    (algorandConnectWallet {} {} "liquid").1
      = .error "Liquid Wallet connection should be handled in component" :=
  ⟨by decide, rfl⟩

def c4AlgoEnv : AlgoConnectEnv :=
  { peraAccounts := .ok ["PERAADDRESS"], wcEvent := .ok ["WCADDRESS"] }

/-- Witness for claim C4 (amended) at concrete states and a well-behaved transport. -/
theorem C4_supported_wallets_witness :
    ({} : AlgorandState).peraWallet = true ∧
    c4AlgoEnv.peraAccounts = .ok ("PERAADDRESS" :: []) ∧
    ({} : AlgorandState).walletConnectClient = true ∧
    ({} : AlgorandState).wcConnected = false ∧
    c4AlgoEnv.wcEvent = .ok ("WCADDRESS" :: []) ∧
    ({} : EvmEnv).ethereumInstalled = true ∧
    ({} : EVMState).chainId = "ethereum_sepolia" ∧
    ({} : EVMState).provider = false ∧
    (SUPPORTED_CHAINS.all (fun p => !(getSupportedWalletsFor p.1).isEmpty) = true ∧
     (algorandConnectWallet {} c4AlgoEnv "liquid").1
       = .error "Liquid Wallet connection should be handled in component" ∧
     (evmConnectWallet {} {} "walletconnect").1 = .error "WalletConnect not implemented yet" ∧
     (evmConnectWallet {} {} "coinbase").1 = .error "Coinbase Wallet not implemented yet" ∧
     (∃ c, (algorandConnectWallet {} c4AlgoEnv "pera").1 = .ok c) ∧
     (∃ c, (algorandConnectWallet {} c4AlgoEnv "walletconnect").1 = .ok c) ∧
     (∃ c, (evmConnectWallet {} {} "metamask").1 = .ok c)) :=
  ⟨rfl, rfl, rfl, rfl, rfl, rfl, rfl, rfl,
   C4_supported_wallets {} c4AlgoEnv {} {} "PERAADDRESS" [] "WCADDRESS" [] "0xabc"
     rfl rfl rfl rfl rfl rfl rfl rfl rfl rfl rfl⟩

/-- With an assigned provider and a registered chain id, switchNetwork always issues
exactly one `wallet_switchEthereumChain` request, first, whatever the wallet
answers. -/
theorem evmSwitchNetwork_calls (st : EVMState) (env : EvmEnv) (cfg : ChainConfig)
    (hprov : st.provider = true) (hcfg : getChainConfig st.chainId = some cfg) :
    ∃ rest, (evmSwitchNetwork st env st.chainId).2.1
        = ProviderCall.switchEthereumChain (hexChainParam cfg) :: rest ∧
      rest.filter isSwitchCall = [] := by
  unfold evmSwitchNetwork evmAddNetwork
  rw [hcfg]
  simp only [hprov, Bool.not_true, Bool.false_eq_true, if_false]
  rcases env.switchRes with e | u
  · by_cases hc : e.code = some 4902
    · rcases env.addRes with e2 | u2 <;>
        simp [hc, isSwitchCall]
    · simp [hc, isSwitchCall]
  · simp [isSwitchCall]

/-- Claim C2 (amended): when an EVM connect sees a network id different from the
configured chain's expected id, it invokes switchNetwork with the expected chain
id, which (provider assigned) sends a `wallet_switchEthereumChain` request carrying
the expected id; if the wallet rejects it with the unrecognized-chain code 4902,
the chain definition (name, currency, RPC URLs, explorer URLs) is added via
`wallet_addEthereumChain` and the connect then succeeds, but the switch request is
not retried after the add. -/
theorem C2_network_switch (st : EVMState) (env env4 : EvmEnv) (cfg : ChainConfig)
    (addr addr4 : String) (net net4 : Nat) (e : ProviderError)
    (hprov : st.provider = true)
    (heth : env.ethereumInstalled = true)
    (hreq : env.requestAccountsRes = .ok ())
    (haddr : env.getAddressRes = .ok addr)
    (hnet : env.getNetworkRes = .ok net)
    (hcfg : getChainConfig st.chainId = some cfg)
    (hmm : toString net ≠ extractChainIdFromConfig cfg)
    (heth4 : env4.ethereumInstalled = true)
    (hreq4 : env4.requestAccountsRes = .ok ())
    (haddr4 : env4.getAddressRes = .ok addr4)
    (hnet4 : env4.getNetworkRes = .ok net4)
    (hmm4 : toString net4 ≠ extractChainIdFromConfig cfg)
    (hsw4 : env4.switchRes = .error e) (hcode : e.code = some 4902)
    (hadd4 : env4.addRes = .ok ()) :
    ProviderCall.callSwitchNetwork st.chainId ∈ (evmConnectWallet st env "metamask").2.1 ∧
    ProviderCall.switchEthereumChain (hexChainParam cfg)
      ∈ (evmConnectWallet st env "metamask").2.1 ∧
    (evmConnectWallet st env4 "metamask").2.1 =
      [.requestAccounts, .getBalanceCall addr4, .getNetwork, .callSwitchNetwork st.chainId,
       .switchEthereumChain (hexChainParam cfg),
       .addEthereumChain (hexChainParam cfg) cfg.displayName cfg.nativeCurrency
         cfg.rpcUrls cfg.blockExplorerUrls] ∧
    ((evmConnectWallet st env4 "metamask").2.1.filter isSwitchCall).length = 1 ∧
    (∃ c, (evmConnectWallet st env4 "metamask").1 = .ok c) := by
  obtain ⟨rest, hrest, hfil⟩ := evmSwitchNetwork_calls st env cfg hprov hcfg
  have htrace : (evmConnectWallet st env "metamask").2.1 =
      [ProviderCall.requestAccounts] ++ (evmGetBalance st env addr).2 ++ [.getNetwork]
        ++ [.callSwitchNetwork st.chainId] ++ (evmSwitchNetwork st env st.chainId).2.1 := by
    unfold evmConnectWallet
    simp only [evmIsWalletAvailable, heth, hreq, haddr, hnet, hcfg, hmm]
    rcases (evmSwitchNetwork st env st.chainId).1 with e1 | u1 <;> simp [hmm]
  have h4 : (evmConnectWallet st env4 "metamask").2.1 =
      [.requestAccounts, .getBalanceCall addr4, .getNetwork, .callSwitchNetwork st.chainId,
       .switchEthereumChain (hexChainParam cfg),
       .addEthereumChain (hexChainParam cfg) cfg.displayName cfg.nativeCurrency
         cfg.rpcUrls cfg.blockExplorerUrls] ∧
      ∃ c, (evmConnectWallet st env4 "metamask").1 = .ok c := by
    unfold evmConnectWallet evmSwitchNetwork evmAddNetwork evmGetBalance
    rw [hcfg]
    simp only [evmIsWalletAvailable, heth4, hreq4, haddr4, hnet4, hmm4, hsw4, hcode,
      hadd4, hprov, Bool.not_true, Bool.false_eq_true, if_false]
    rcases env4.getBalanceWei with e2 | w <;> simp [hmm4]
  refine ⟨?_, ?_, h4.1, ?_, h4.2⟩
  · rw [htrace]; simp
  · rw [htrace, hrest]; simp
  · rw [h4.1]; simp [isSwitchCall]

def c2State : EVMState :=
  { provider := true, signer := false, currentConnection := none,
    chainId := "ethereum_sepolia" }

def c2Err : ProviderError := { code := some 4902, message := "Unrecognized chain ID" }

def c2Env : EvmEnv := { getNetworkRes := .ok 1, switchRes := .error c2Err }

/-- Counterexample for claim C2 as stated: with the wallet answering the switch
request with the unrecognized-chain code 4902 and accepting the add, the full
provider-call trace contains exactly one `wallet_switchEthereumChain` request,
issued before the add; the switch is never retried after the chain is added, yet
the connection succeeds. -/
theorem C2_counterexample :
    (evmConnectWallet c2State c2Env "metamask").2.1 =
      [.requestAccounts, .getBalanceCall "0xabc", .getNetwork,
       .callSwitchNetwork "ethereum_sepolia", .switchEthereumChain "0xaa36a7",
       .addEthereumChain "0xaa36a7" "Ethereum Sepolia"
         { name := "Ethereum", symbol := "ETH", decimals := 18 }
         ["https://sepolia.infura.io/v3/9aa3d95b3bc440fa88ea12eaa4456161"]
         ["https://sepolia.etherscan.io"]] ∧
    ((evmConnectWallet c2State c2Env "metamask").2.1.filter isSwitchCall).length = 1 ∧
    (evmConnectWallet c2State c2Env "metamask").1 =
      .ok { address := "0xabc", balance := "0.1234", chainId := "ethereum_sepolia",
            walletType := "metamask" } := by
  refine ⟨by decide, by decide, rfl⟩

/-- Witness for claim C2 (amended) at a concrete mismatching connect with a
4902-answering wallet. -/
theorem C2_network_switch_witness :
    c2State.provider = true ∧
    c2Env.getNetworkRes = .ok 1 ∧
    getChainConfig c2State.chainId = some ethereumSepoliaConfig ∧
    toString (1 : Nat) ≠ extractChainIdFromConfig ethereumSepoliaConfig ∧
    c2Env.switchRes = .error c2Err ∧ c2Err.code = some 4902 ∧ c2Env.addRes = .ok () ∧
    (ProviderCall.callSwitchNetwork c2State.chainId
        ∈ (evmConnectWallet c2State c2Env "metamask").2.1 ∧
     ProviderCall.switchEthereumChain (hexChainParam ethereumSepoliaConfig)
        ∈ (evmConnectWallet c2State c2Env "metamask").2.1 ∧
     (evmConnectWallet c2State c2Env "metamask").2.1 =
       [.requestAccounts, .getBalanceCall "0xabc", .getNetwork,
        .callSwitchNetwork c2State.chainId,
        .switchEthereumChain (hexChainParam ethereumSepoliaConfig),
        .addEthereumChain (hexChainParam ethereumSepoliaConfig)
          ethereumSepoliaConfig.displayName ethereumSepoliaConfig.nativeCurrency
          ethereumSepoliaConfig.rpcUrls ethereumSepoliaConfig.blockExplorerUrls] ∧
     ((evmConnectWallet c2State c2Env "metamask").2.1.filter isSwitchCall).length = 1 ∧
     (∃ c, (evmConnectWallet c2State c2Env "metamask").1 = .ok c)) :=
  ⟨rfl, rfl, rfl, by decide, rfl, rfl, rfl,
   C2_network_switch c2State c2Env c2Env ethereumSepoliaConfig "0xabc" "0xabc" 1 1 c2Err
     rfl rfl rfl rfl rfl rfl (by decide) rfl rfl rfl rfl (by decide) rfl rfl rfl⟩

theorem objGet_objSet_self {α : Type} (l : List (String × α)) (k : String) (v : α) :
    objGet (objSet l k v) k = some v := by
  induction l with
  | nil => simp [objSet, objGet]
  | cons p rest ih =>
      obtain ⟨k', v'⟩ := p
      by_cases h : k' = k
      · simp [objSet, objGet, h]
      · simp [objSet, objGet, h, ih]

theorem objGet_objDelete_ne {α : Type} (l : List (String × α)) (k c : String) (h : c ≠ k) :
    objGet (objDelete l k) c = objGet l c := by
  induction l with
  | nil => rfl
  | cons p rest ih =>
      obtain ⟨k', v'⟩ := p
      by_cases hk : k' = k
      · subst hk
        simp [objDelete, objGet, Ne.symm h, ih]
      · by_cases hc : k' = c
        · subst hc
          simp [objDelete, objGet, hk]
        · simp [objDelete, objGet, hk, hc, ih]

theorem objGet_head_key {α : Type} (l : List (String × α)) (c : String)
    (h : (objKeys l).head? = some c) : (objGet l c).isSome = true := by
  cases l with
  | nil => simp [objKeys] at h
  | cons p rest =>
      obtain ⟨k', v'⟩ := p
      simp [objKeys] at h
      subst h
      simp [objGet]

/-- Every connect, disconnect or switch operation of the context preserves the
active-chain invariant. -/
theorem activeChainValid_applyCtxOp (p : BlockchainState × LocalStorage) (op : CtxOp)
    (h : activeChainValid p.1 = true) : activeChainValid (applyCtxOp p op).1 = true := by
  obtain ⟨st, sto⟩ := p
  cases op with
  | connect chainId res =>
      unfold applyCtxOp ctxConnectWallet
      by_cases hreg : registryHasChain chainId
      · cases res with
        | error e => simpa [hreg, activeChainValid] using h
        | ok conn => simp [hreg, activeChainValid, objGet_objSet_self]
      · simpa [hreg, activeChainValid] using h
  | disconnectOne chainId =>
      unfold applyCtxOp ctxDisconnectOne
      by_cases hact : st.activeChain = some chainId
      · simp only [hact, if_pos rfl, activeChainValid]
        cases hh : (objKeys (objDelete st.connections chainId)).head? with
        | none => simp [jsHeadOrNull]
        | some c =>
            by_cases hce : c = ""
            · simp [jsHeadOrNull, hce]
            · simp only [jsHeadOrNull, hce, if_neg hce]
              simpa using objGet_head_key _ _ hh
      · simp only [if_neg hact, activeChainValid]
        cases hac : st.activeChain with
        | none => simp
        | some c =>
            have hc : c ≠ chainId := by
              intro hh
              exact hact (by rw [hac, hh])
            show (objGet (objDelete st.connections chainId) c).isSome = true
            rw [objGet_objDelete_ne _ _ _ hc]
            simpa [activeChainValid, hac] using h
  | disconnectAll => simp [applyCtxOp, ctxDisconnectAll, activeChainValid]
  | switchTo chainId =>
      unfold applyCtxOp ctxSwitchChain
      by_cases hc : (objGet st.connections chainId).isNone
      · simpa [hc, activeChainValid] using h
      · cases hg : objGet st.connections chainId with
        | none => exact absurd (by simp [hg]) hc
        | some v => simp [activeChainValid, hg]

/-- Claim C3 (amended): every state reached from the initial context state by a
sequence of connectWallet, disconnectWallet and switchChain operations satisfies
the invariant that a non-null active chain has an entry in the connection map;
restoration from persisted storage is excluded, since it can violate the
invariant. -/
theorem C3_ops_preserve_invariant (ops : List CtxOp) :
    activeChainValid (List.foldl applyCtxOp (initialState, emptyStorage) ops).1 = true := by
  have gen : ∀ (l : List CtxOp) (p : BlockchainState × LocalStorage),
      activeChainValid p.1 = true → activeChainValid (List.foldl applyCtxOp p l).1 = true := by
    intro l
    induction l with
    | nil => exact fun p h => h
    | cons op rest ih => exact fun p h => ih _ (activeChainValid_applyCtxOp p op h)
  exact gen ops _ (by decide)

def c3Conn : WalletConnection :=
  { address := "C3ADDR", balance := "1.234567", chainId := "algorand_testnet",
    walletType := "pera" }

/-- Counterexample for claim C3 as stated: connect to the Algorand testnet, then
disconnect that chain by id (which nulls the active chain in memory but leaves the
stale persisted active-chain key), then restore a fresh context from the persisted
storage: the restored state has a non-null active chain with no entry in the
(empty) restored connection map. -/
theorem C3_counterexample :
    (ctxRestore initialState
        (List.foldl applyCtxOp (initialState, emptyStorage)
          [.connect "algorand_testnet" (.ok c3Conn),
           .disconnectOne "algorand_testnet"]).2).activeChain = some "algorand_testnet" ∧
    objGet (ctxRestore initialState
        (List.foldl applyCtxOp (initialState, emptyStorage)
          [.connect "algorand_testnet" (.ok c3Conn),
           .disconnectOne "algorand_testnet"]).2).connections "algorand_testnet" = none ∧
    activeChainValid (ctxRestore initialState
        (List.foldl applyCtxOp (initialState, emptyStorage)
          [.connect "algorand_testnet" (.ok c3Conn),
           .disconnectOne "algorand_testnet"]).2) = false := by
  refine ⟨by decide, by decide, by decide⟩

/-- Claim C5 (amended): after a successful connectWallet, switchChain or
disconnect-all, the persisted storage agrees with the in-memory state, and after
every per-chain disconnect the persisted connection map agrees with the in-memory
one while the active-chain key agrees whenever the resulting active chain is
non-null and keeps its previous value (the pre-disconnect active chain) when the
disconnect nulls it; in every operation all storage writes happen after the
in-memory state transitions. -/
theorem C5_persistence (st : BlockchainState) (sto : LocalStorage)
    (cidC : String) (conn : WalletConnection) (cidS cidD : String)
    (h : storageAgrees st sto)
    (hreg : registryHasChain cidC = true)
    (hconn : (objGet st.connections cidS).isNone = false) :
    (storageAgrees (ctxConnectWallet st sto cidC (.ok conn)).state
        (ctxConnectWallet st sto cidC (.ok conn)).storage ∧
      storageWritesLast (ctxConnectWallet st sto cidC (.ok conn)).events = true) ∧
    (storageAgrees (ctxSwitchChain st sto cidS).state (ctxSwitchChain st sto cidS).storage ∧
      storageWritesLast (ctxSwitchChain st sto cidS).events = true) ∧
    (storageAgrees (ctxDisconnectAll st sto).state (ctxDisconnectAll st sto).storage ∧
      storageWritesLast (ctxDisconnectAll st sto).events = true) ∧
    ((ctxDisconnectOne st sto cidD).storage.blockchain_connections
        = some (ctxDisconnectOne st sto cidD).state.connections ∧
      storageWritesLast (ctxDisconnectOne st sto cidD).events = true ∧
      ((ctxDisconnectOne st sto cidD).state.activeChain = none →
        (ctxDisconnectOne st sto cidD).storage.active_chain = st.activeChain) ∧
      ((ctxDisconnectOne st sto cidD).state.activeChain ≠ none →
        storageAgrees (ctxDisconnectOne st sto cidD).state
          (ctxDisconnectOne st sto cidD).storage)) := by
  obtain ⟨h1, h2⟩ := h
  refine ⟨⟨?_, ?_⟩, ⟨?_, ?_⟩, ⟨?_, ?_⟩, ?_⟩
  · simp [ctxConnectWallet, hreg, storageAgrees, saveConnections]
  · simp [ctxConnectWallet, hreg, saveConnections, storageWritesLast, isStorageEvent]
  · simp [ctxSwitchChain, hconn, storageAgrees, h1]
  · simp [ctxSwitchChain, hconn, storageWritesLast, isStorageEvent]
  · simp [ctxDisconnectAll, storageAgrees]
  · simp [ctxDisconnectAll, storageWritesLast, isStorageEvent]
  · by_cases hact : st.activeChain = some cidD
    · simp only [ctxDisconnectOne, hact, if_pos rfl]
      cases hh : jsHeadOrNull (objKeys (objDelete st.connections cidD)).head? with
      | none =>
          simp [hh, saveConnections, storageAgrees, storageWritesLast, isStorageEvent,
            h2, hact]
      | some c =>
          simp [hh, saveConnections, storageAgrees, storageWritesLast, isStorageEvent]
    · simp only [ctxDisconnectOne, if_neg hact]
      cases hac : st.activeChain with
      | none =>
          simp [saveConnections, storageAgrees, storageWritesLast, isStorageEvent,
            h2, hac]
      | some c =>
          simp [saveConnections, storageAgrees, storageWritesLast, isStorageEvent, hac]

def c5Conn : WalletConnection :=
  { address := "C5ADDR", balance := "1.234567", chainId := "algorand_testnet",
    walletType := "pera" }

def c5State : BlockchainState :=
  { isConnected := true, activeChain := some "algorand_testnet",
    connections := [("algorand_testnet", c5Conn)], isConnecting := false, error := none }

def c5Storage : LocalStorage :=
  { blockchain_connections := some [("algorand_testnet", c5Conn)],
    active_chain := some "algorand_testnet" }

/-- Counterexample for claim C5 as stated: from an agreeing state with a single
active Algorand connection, the successful per-chain disconnect nulls the in-memory
active chain but leaves the persisted active-chain key at its old value, so state
and storage disagree after a successful mutating operation. -/
theorem C5_counterexample :
    storageAgrees c5State c5Storage ∧
    (ctxDisconnectOne c5State c5Storage "algorand_testnet").res = .ok () ∧
    (ctxDisconnectOne c5State c5Storage "algorand_testnet").state.activeChain = none ∧
    (ctxDisconnectOne c5State c5Storage "algorand_testnet").storage.active_chain
      = some "algorand_testnet" ∧
    ¬ storageAgrees (ctxDisconnectOne c5State c5Storage "algorand_testnet").state
        (ctxDisconnectOne c5State c5Storage "algorand_testnet").storage :=
  ⟨by decide, rfl, by decide, by decide, by decide⟩

def c5EvmConn : WalletConnection :=
  { address := "0xdef", balance := "0.1234", chainId := "ethereum_sepolia",
    walletType := "metamask" }

def c5TwoState : BlockchainState :=
  { isConnected := true, activeChain := some "algorand_testnet",
    connections := [("algorand_testnet", c5Conn), ("ethereum_sepolia", c5EvmConn)],
    isConnecting := false, error := none }

def c5TwoStorage : LocalStorage :=
  { blockchain_connections := some [("algorand_testnet", c5Conn), ("ethereum_sepolia", c5EvmConn)],
    active_chain := some "algorand_testnet" }

/-- Witness for claim C5 (amended) at a concrete two-connection state. -/
theorem C5_persistence_witness :
    storageAgrees c5TwoState c5TwoStorage ∧
    registryHasChain "base_sepolia" = true ∧
    (objGet c5TwoState.connections "ethereum_sepolia").isNone = false ∧
    ((storageAgrees (ctxConnectWallet c5TwoState c5TwoStorage "base_sepolia" (.ok c5EvmConn)).state
        (ctxConnectWallet c5TwoState c5TwoStorage "base_sepolia" (.ok c5EvmConn)).storage ∧
      storageWritesLast (ctxConnectWallet c5TwoState c5TwoStorage "base_sepolia" (.ok c5EvmConn)).events = true) ∧
     (storageAgrees (ctxSwitchChain c5TwoState c5TwoStorage "ethereum_sepolia").state
        (ctxSwitchChain c5TwoState c5TwoStorage "ethereum_sepolia").storage ∧
      storageWritesLast (ctxSwitchChain c5TwoState c5TwoStorage "ethereum_sepolia").events = true) ∧
     (storageAgrees (ctxDisconnectAll c5TwoState c5TwoStorage).state
        (ctxDisconnectAll c5TwoState c5TwoStorage).storage ∧
      storageWritesLast (ctxDisconnectAll c5TwoState c5TwoStorage).events = true) ∧
     ((ctxDisconnectOne c5TwoState c5TwoStorage "ethereum_sepolia").storage.blockchain_connections
        = some (ctxDisconnectOne c5TwoState c5TwoStorage "ethereum_sepolia").state.connections ∧
      storageWritesLast (ctxDisconnectOne c5TwoState c5TwoStorage "ethereum_sepolia").events = true ∧
      ((ctxDisconnectOne c5TwoState c5TwoStorage "ethereum_sepolia").state.activeChain = none →
        (ctxDisconnectOne c5TwoState c5TwoStorage "ethereum_sepolia").storage.active_chain
          = c5TwoState.activeChain) ∧
      ((ctxDisconnectOne c5TwoState c5TwoStorage "ethereum_sepolia").state.activeChain ≠ none →
        storageAgrees (ctxDisconnectOne c5TwoState c5TwoStorage "ethereum_sepolia").state
          (ctxDisconnectOne c5TwoState c5TwoStorage "ethereum_sepolia").storage))) :=
  ⟨by decide, by decide, by decide,
   C5_persistence c5TwoState c5TwoStorage "base_sepolia" c5EvmConn "ethereum_sepolia"
     "ethereum_sepolia" (by decide) (by decide) (by decide)⟩

end MemeForge
